import Mathlib

/-!
Verification of the sybil-images service (src/sybil-images/server.py)
against its specification. Each Python definition relevant to a claim is
embedded as a Lean definition; line numbers refer to server.py.
-/

namespace SybilImages

/-! ## Seed derivation (server.py lines 150-154 and 194-197)

The handlers compute, for a non-empty request name,
  seed = hash(req.name) % (2**32)            (avatar, line 152)
  seed = hash(req.name + "_banner") % (2**32) (banner, line 195)
where hash is CPython's builtin hash. Since Python 3.3 string hashing is
keyed by a random per-process value (PYTHONHASHSEED), so the hash function
is fixed within one process run but differs between runs. A process run is
therefore represented here by its hash function pyHash; the same pyHash is
used for every call of one run, and distinct runs generally carry distinct
functions. -/

/-- Seed derived for an avatar request with a non-empty name (line 152):
the process hash of the name, reduced modulo 2^32 (Python % on a positive
modulus yields a value in [0, 2^32), as Int.emod does). -/
def derive_seed_avatar (pyHash : String → Int) (name : String) : Int :=
  pyHash name % (2 ^ 32)

/-- Seed derived for a banner request with a non-empty name (line 195):
the process hash of the name with the fixed "_banner" suffix appended,
reduced modulo 2^32. -/
def derive_seed_banner (pyHash : String → Int) (name : String) : Int :=
  pyHash (name ++ "_banner") % (2 ^ 32)

/-! ## Style catalogs (server.py lines 110-134 and 242-254) -/

/-- The two global style catalogs (AVATAR_STYLES and BANNER_STYLES). -/
structure Catalogs where
  avatar_styles : List String
  banner_styles : List String
deriving DecidableEq, Repr

/-- Initial AVATAR_STYLES (lines 110-121). -/
def AVATAR_STYLES : List String := [
  "portrait photo of a young person, natural lighting, casual, looking at camera, shallow depth of field",
  "professional headshot, studio lighting, neutral background, confident expression, sharp focus",
  "candid selfie of a person outdoors, golden hour, warm tones, natural smile",
  "portrait of a person in a coffee shop, soft ambient lighting, bokeh background",
  "close-up portrait, dramatic side lighting, moody atmosphere, sharp details",
  "casual portrait photo, urban street background, natural daylight, relaxed pose",
  "portrait of a person at sunset, warm orange light, silhouette edges, peaceful expression",
  "indoor portrait, window light, soft shadows, clean modern room background",
  "portrait photo of a person, overcast day, muted tones, thoughtful expression, natural skin",
  "headshot portrait, ring light, clean background, friendly expression, high detail"]

/-- Initial BANNER_STYLES (lines 123-134). -/
def BANNER_STYLES : List String := [
  "aerial photograph of a city skyline at golden hour, warm light, wide panoramic",
  "landscape photograph of mountains and lake, moody clouds, cinematic wide shot",
  "urban street photography, rain reflections, neon signs, night, wide format",
  "ocean waves crashing on rocky coast, dramatic sky, panoramic photograph",
  "dense forest canopy from above, misty morning, green tones, wide shot",
  "desert highway stretching to horizon, sunset, golden light, panoramic",
  "rooftop view of city at night, bokeh lights, wide angle photograph",
  "autumn forest path, golden leaves, soft light filtering through trees, wide",
  "beach at sunrise, calm water, pastel sky, minimal and serene, panoramic",
  "snow-covered mountain range, blue hour, crisp detail, cinematic wide shot"]

/-- Catalog state at process start. -/
def initialCatalogs : Catalogs := ⟨AVATAR_STYLES, BANNER_STYLES⟩

/-- Body of PUT /styles (UpdateStylesRequest, lines 103-105): each field is
None when omitted. -/
structure UpdateStylesRequest where
  avatar_styles : Option (List String)
  banner_styles : Option (List String)
deriving DecidableEq, Repr

/-- Success body returned by update_styles (line 254). -/
structure UpdateStylesResponse where
  success : Bool
  avatar_styles_count : Nat
  banner_styles_count : Nat
deriving DecidableEq, Repr

/-- Second half of update_styles (lines 250-254), reached only after the
avatar branch completed without raising: the banner branch and the final
response. The Catalogs component of the result is the state of the global
lists when the handler returns or raises. -/
def update_styles_banner_branch (req : UpdateStylesRequest) (st : Catalogs) :
    Catalogs × Except String UpdateStylesResponse :=
  match req.banner_styles with
  | none =>
      (st, Except.ok ⟨true, st.avatar_styles.length, st.banner_styles.length⟩)
  | some l =>
      if l.length = 0 then
        (st, Except.error "banner_styles cannot be empty")
      else
        let st₂ : Catalogs := { st with banner_styles := l }
        (st₂, Except.ok ⟨true, st₂.avatar_styles.length, st₂.banner_styles.length⟩)

/-- PUT /styles handler update_styles (lines 242-254). The avatar branch
runs first: a supplied empty avatar list raises HTTPException(400)
immediately (modelled as Except.error), before the banner branch is
examined; a supplied non-empty avatar list is assigned to the global at
once, so it stays assigned even if the banner branch raises afterwards. -/
def update_styles (req : UpdateStylesRequest) (st : Catalogs) :
    Catalogs × Except String UpdateStylesResponse :=
  match req.avatar_styles with
  | none => update_styles_banner_branch req st
  | some l =>
      if l.length = 0 then
        (st, Except.error "avatar_styles cannot be empty")
      else
        update_styles_banner_branch req { st with avatar_styles := l }

/-! ## Model lifecycle (server.py lines 24-25, 34-40, 43-65, 68-83, 229-233)

The handlers are async defs that contain no await expression, so under the
asyncio event loop each handler body — in particular each call of
load_model — runs to completion without interleaving with any other
request. One load_model call is therefore one atomic step, and N
concurrent requests amount to some sequential ordering of their steps. -/

/-- The global model state: pipe (line 24) and model_loaded (line 25).
load_count is a ghost field counting how many times the pipeline
constructor AutoPipelineForText2Image.from_pretrained (line 54) has
executed; each constructed pipeline object is represented by a fresh
handle id. -/
structure ModelState where
  pipe : Option Nat
  model_loaded : Bool
  load_count : Nat
deriving DecidableEq, Repr

/-- State at process start (lines 24-25). -/
def initModelState : ModelState := ⟨none, false, 0⟩

/-- load_model (lines 43-65): returns immediately when model_loaded is
already true; otherwise constructs the pipeline and only then sets
model_loaded. -/
def load_model (st : ModelState) : ModelState :=
  if st.model_loaded then st
  else ⟨some st.load_count, true, st.load_count + 1⟩

/-- n sequential load_model steps, one per request reaching line 146 or
line 190. -/
def iterate_load : Nat → ModelState → ModelState
  | 0, st => st
  | n + 1, st => iterate_load n (load_model st)

/-- Availability of the torch backends on the host, fixed for a process. -/
structure TorchEnv where
  mps_available : Bool
  cuda_available : Bool
deriving DecidableEq, Repr

/-- get_device (lines 34-40): mps preferred, then cuda, else cpu. -/
def get_device (env : TorchEnv) : String :=
  if env.mps_available then "mps"
  else if env.cuda_available then "cuda"
  else "cpu"

/-- Observable outcome of unload_model: the resulting global state,
whether a device cache-clearing call ran, and whether gc.collect ran. -/
structure UnloadEffects where
  state : ModelState
  cache_cleared : Bool
  gc_collected : Bool
deriving DecidableEq, Repr

/-- unload_model (lines 68-83): drops the pipe reference if present,
clears model_loaded, runs torch.mps.empty_cache when mps is available,
else torch.cuda.empty_cache when cuda is available (no device cache
exists on plain cpu), then gc.collect. The body has no raise statement
and no fallible branch: every path returns. -/
def unload_model (env : TorchEnv) (st : ModelState) : UnloadEffects :=
  ⟨⟨none, false, st.load_count⟩,
   env.mps_available || env.cuda_available,
   true⟩

/-- Body returned by POST /unload (line 233). -/
structure UnloadResponse where
  success : Bool
  message : String
deriving DecidableEq, Repr

/-- POST /unload handler (lines 229-233): calls unload_model and returns
a fixed success body. -/
def unload (env : TorchEnv) (st : ModelState) : UnloadEffects × UnloadResponse :=
  (unload_model env st, ⟨true, "Model unloaded"⟩)

/-! ## Generation counters (server.py lines 29-31, 170-173, 213-216) -/

/-- The three process-wide counters (lines 29-31), Python integers. -/
structure Counters where
  total_generated : Int
  avatars_generated : Int
  banners_generated : Int
deriving DecidableEq, Repr

/-- Counter state at process start. -/
def initCounters : Counters := ⟨0, 0, 0⟩

/-- Effect of one POST /generate-avatar request on the counters
(generate_avatar, lines 142-183). The body runs inside try: load_model
(line 146), the render call (lines 158-165) and image.save (line 169) can
each raise; the increments (lines 171-173) execute only after image.save
returned; the except branch (lines 182-183) re-raises as a 500 response
without touching any counter. The booleans record whether each fallible
step succeeds; the Bool result is whether the request returned success. -/
def generate_avatar_counters (loadOk renderOk saveOk : Bool) (c : Counters) :
    Counters × Bool :=
  if loadOk then
    if renderOk then
      if saveOk then
        (⟨c.total_generated + 1, c.avatars_generated + 1, c.banners_generated⟩, true)
      else (c, false)
    else (c, false)
  else (c, false)

/-- Effect of one POST /generate-banner request on the counters
(generate_banner, lines 186-226), mirroring generate_avatar_counters with
the increments of lines 214-216. -/
def generate_banner_counters (loadOk renderOk saveOk : Bool) (c : Counters) :
    Counters × Bool :=
  if loadOk then
    if renderOk then
      if saveOk then
        (⟨c.total_generated + 1, c.avatars_generated, c.banners_generated + 1⟩, true)
      else (c, false)
    else (c, false)
  else (c, false)

/-- One server operation as seen by the counters: the two generate
endpoints are the only code that writes total_generated,
avatars_generated or banners_generated; every other endpoint (health,
unload, styles, stats, recent, clear-output) leaves them unchanged and is
represented by Op.other. -/
inductive Op
  | genAvatar (loadOk renderOk saveOk : Bool)
  | genBanner (loadOk renderOk saveOk : Bool)
  | other
deriving DecidableEq, Repr

/-- Counter effect of one operation. -/
def stepCounters : Op → Counters → Counters
  | .genAvatar l r s, c => (generate_avatar_counters l r s c).1
  | .genBanner l r s, c => (generate_banner_counters l r s c).1
  | .other, c => c

/-- Counter state after a sequence of operations. -/
def runOps (ops : List Op) (c : Counters) : Counters :=
  ops.foldl (fun st op => stepCounters op st) c

/-! ## Artifact store (server.py lines 167-169, 210-212, 273-287, 290-296) -/

/-- The output directory as an association list from filename to file
contents (contents represented by a Nat identifier), most recent write
first. -/
def read_file (dir : List (String × Nat)) (name : String) : Option Nat :=
  (dir.find? (fun e => e.1 == name)).map (fun e => e.2)

/-- image.save(filepath) (lines 169 and 212): PIL opens the target path
for writing and truncates, so an existing file at the same path is
replaced without any error and a fresh path is created; no existence
check appears anywhere in the handlers. -/
def save_image (dir : List (String × Nat)) (filename : String) (content : Nat) :
    List (String × Nat) :=
  (filename, content) :: dir.filter (fun e => e.1 != filename)

/-- The unlink loop of clear_output (lines 294-295). files is the
snapshot taken by the glob at line 293; vanished marks the files that a
concurrent actor removed between the glob and the unlink call.
Path.unlink with default arguments raises FileNotFoundError for a path
that no longer exists, and no try/except surrounds the loop, so the
first failing unlink aborts the handler. Returns the filenames actually
unlinked and the error, if one was raised. -/
def clear_output_loop (vanished : String → Bool) :
    List String → List String × Option String
  | [] => ([], none)
  | f :: rest =>
      if vanished f then ([], some ("FileNotFoundError: " ++ f))
      else
        let r := clear_output_loop vanished rest
        (f :: r.1, r.2)

/-- POST /clear-output handler clear_output (lines 290-296): globs the
png files, unlinks each in order, and on success reports
deleted = len(files), the length of the glob snapshot. -/
def clear_output (files : List String) (vanished : String → Bool) :
    List String × Except String Nat :=
  let r := clear_output_loop vanished files
  match r.2 with
  | some e => (r.1, Except.error e)
  | none => (r.1, Except.ok files.length)

/-- A png file of the output directory with its modification time, as
observed by the glob at line 276. -/
structure FileEntry where
  filename : String
  mtime : Nat
deriving DecidableEq, Repr

/-- The sort key relation of line 276: sorted(key=mtime, reverse=True)
orders a before b when b's mtime is at most a's. -/
def mtime_ge (a b : FileEntry) : Prop := b.mtime ≤ a.mtime

instance : DecidableRel mtime_ge := fun a b => Nat.decLe b.mtime a.mtime

instance : IsTotal FileEntry mtime_ge := ⟨fun a b => Nat.le_total b.mtime a.mtime⟩

instance : IsTrans FileEntry mtime_ge :=
  ⟨fun _ _ _ hab hbc => Nat.le_trans hbc hab⟩

/-- Python str.startswith (used at line 280): the candidate's character
sequence is an initial segment of the name's character sequence. -/
def starts_with (name candidate : String) : Bool :=
  candidate.data.isPrefixOf name.data

/-- Type classification of line 280: avatar for names starting avatar_,
banner for names starting banner_, unknown otherwise. -/
def classify_filename (name : String) : String :=
  if starts_with name "avatar_" then "avatar"
  else if starts_with name "banner_" then "banner"
  else "unknown"

/-- GET /recent handler get_recent (lines 273-287): sort the png listing
by modification time, newest first (Python sorted is a stable sort; here
insertion sort on mtime_ge), truncate to limit, and classify each entry
by its filename prefix. Each response row keeps (filename, type);
size_kb and created_at are per-file metadata not derived from other
files. -/
def get_recent (limit : Nat) (dir : List FileEntry) : List (String × String) :=
  ((List.insertionSort mtime_ge dir).take limit).map
    (fun f => (f.filename, classify_filename f.filename))

/-! ## Style selection in the generate handlers (lines 98-100, 148, 192) -/

/-- Body of the generate endpoints (GenerateRequest, lines 98-100):
pydantic gives both fields the default "", so an omitted field arrives
as the empty string. -/
structure GenerateRequest where
  name : String
  style : String
deriving DecidableEq, Repr

/-- A POST body that supplies neither field. -/
def omittedGenerateRequest : GenerateRequest := ⟨"", ""⟩

/-- Style resolution at lines 148 and 192:
style = req.style or random.choice(catalog). Python or on strings
evaluates to the right operand exactly when the left is the empty string
(the only falsy string). random.choice draws a uniformly random index
below the catalog length; the draw is modelled by the pick parameter,
reduced modulo the length. -/
def choose_style (reqStyle : String) (catalog : List String) (pick : Nat) : String :=
  if reqStyle = "" then catalog.getD (pick % catalog.length) "" else reqStyle

/-! ## Theorems -/

/-- C1. The seed derived for a fixed non-empty name is exactly the
process hash value reduced modulo 2^32, for each kind; consequently the
seed is stable within one process run, but any two process runs whose
hash functions differ at the relevant string (mod 2^32) derive different
seeds for the same name and kind — so the claimed stability across
process restarts fails for CPython's per-process randomized string hash. -/
theorem derive_seed_process_dependent (h₁ h₂ : String → Int) (name : String) :
    derive_seed_avatar h₁ name = h₁ name % (2 ^ 32) ∧
    derive_seed_banner h₁ name = h₁ (name ++ "_banner") % (2 ^ 32) ∧
    (h₁ name % (2 ^ 32) ≠ h₂ name % (2 ^ 32) →
      derive_seed_avatar h₁ name ≠ derive_seed_avatar h₂ name) ∧
    (h₁ (name ++ "_banner") % (2 ^ 32) ≠ h₂ (name ++ "_banner") % (2 ^ 32) →
      derive_seed_banner h₁ name ≠ derive_seed_banner h₂ name) :=
  ⟨rfl, rfl, fun hne => hne, fun hne => hne⟩

/-- Witness for C1: two process runs whose hash functions give 0 and 1
on "alice" derive different avatar seeds for the name "alice". -/
theorem derive_seed_process_dependent_witness :
    derive_seed_avatar (fun _ => 0) "alice" ≠ derive_seed_avatar (fun _ => 1) "alice" :=
  (derive_seed_process_dependent (fun _ => 0) (fun _ => 1) "alice").2.2.1 (by decide)

/-- C2 counterexample: with avatar_styles = [] and banner_styles = ["x"]
both explicitly supplied, the handler raises on the empty avatar list
before the banner branch runs, so the valid banner list is NOT applied —
refuting the claim that when both lists are supplied and exactly one is
empty, the other valid list is still applied. -/
theorem update_styles_empty_avatar_blocks_valid_banner :
    (update_styles ⟨some [], some ["x"]⟩ initialCatalogs).1 = initialCatalogs ∧
    (update_styles ⟨some [], some ["x"]⟩ initialCatalogs).1.banner_styles ≠ ["x"] ∧
    (update_styles ⟨some [], some ["x"]⟩ initialCatalogs).2 =
      Except.error "avatar_styles cannot be empty" :=
  ⟨rfl, by decide, rfl⟩

/-- C2 amended. update_styles validates and applies sequentially, avatar
first: an omitted list is left untouched; an explicitly empty avatar
list is rejected with a client error leaving both catalogs unchanged and
the banner list (even a valid one) unapplied; a valid avatar list is
applied immediately, so a subsequent empty banner list is rejected with
the avatar replacement already in effect; two valid lists are both
applied. -/
theorem update_styles_sequential (st : Catalogs) (a b : List String) :
    (update_styles ⟨none, none⟩ st =
      (st, Except.ok ⟨true, st.avatar_styles.length, st.banner_styles.length⟩)) ∧
    (∀ bs : Option (List String),
      update_styles ⟨some [], bs⟩ st = (st, Except.error "avatar_styles cannot be empty")) ∧
    (a ≠ [] →
      update_styles ⟨some a, some []⟩ st =
        ({ st with avatar_styles := a }, Except.error "banner_styles cannot be empty")) ∧
    (a ≠ [] → b ≠ [] →
      update_styles ⟨some a, some b⟩ st =
        (⟨a, b⟩, Except.ok ⟨true, a.length, b.length⟩)) ∧
    (a ≠ [] →
      update_styles ⟨some a, none⟩ st =
        ({ st with avatar_styles := a },
         Except.ok ⟨true, a.length, st.banner_styles.length⟩)) ∧
    (b ≠ [] →
      update_styles ⟨none, some b⟩ st =
        ({ st with banner_styles := b },
         Except.ok ⟨true, st.avatar_styles.length, b.length⟩)) := by
  refine ⟨rfl, fun bs => rfl, fun ha => ?_, fun ha hb => ?_, fun ha => ?_, fun hb => ?_⟩
  · simp [update_styles, update_styles_banner_branch, List.length_eq_zero, ha]
  · simp [update_styles, update_styles_banner_branch, List.length_eq_zero, ha, hb]
  · simp [update_styles, update_styles_banner_branch, List.length_eq_zero, ha]
  · simp [update_styles, update_styles_banner_branch, List.length_eq_zero, hb]

/-- Witness for C2 amended: a valid avatar list followed by an empty
banner list leaves the avatar replacement applied and errors. -/
theorem update_styles_sequential_witness :
    update_styles ⟨some ["x"], some []⟩ ⟨["a"], ["b"]⟩ =
      (⟨["x"], ["b"]⟩, Except.error "banner_styles cannot be empty") :=
  (update_styles_sequential ⟨["a"], ["b"]⟩ ["x"] ["y"]).2.2.1 (by decide)

/-- Applying load_model to an already-loaded state changes nothing. -/
theorem load_model_of_loaded (st : ModelState) (h : st.model_loaded = true) :
    load_model st = st := by
  simp [load_model, h]

/-- Iterating load_model from an already-loaded state changes nothing. -/
theorem iterate_load_of_loaded (n : Nat) (st : ModelState)
    (h : st.model_loaded = true) : iterate_load n st = st := by
  induction n with
  | zero => rfl
  | succ n ih => simpa [iterate_load, load_model_of_loaded st h] using ih

/-- C5. load_model bodies run atomically on the event loop (they contain
no await point), so N concurrent requests perform their load_model calls
in some sequential order; from the initial UNLOADED state, any positive
number of such calls constructs the pipeline exactly once (ghost
load_count = 1), and every caller thereafter observes the same LOADED
state holding that single handle. -/
theorem load_single_flight (n : Nat) (h : 1 ≤ n) :
    iterate_load n initModelState = ⟨some 0, true, 1⟩ := by
  cases n with
  | zero => exact absurd h (by decide)
  | succ m =>
      have h1 : iterate_load (m + 1) initModelState
          = iterate_load m (load_model initModelState) := rfl
      rw [h1]
      exact iterate_load_of_loaded m ⟨some 0, true, 1⟩ rfl

/-- Witness for C5: five requests racing on the initial state yield one
construction and a loaded state. -/
theorem load_single_flight_witness :
    iterate_load 5 initModelState = ⟨some 0, true, 1⟩ :=
  load_single_flight 5 (by decide)

/-- C6. unload_model is total (no raise path exists in its body): for
every backend environment and every starting state it completes,
afterwards model_loaded is false and the pipe reference is released; when
the model was already unloaded the state is unchanged (no-op); a device
cache-clearing call runs exactly when an accelerator backend is
available, a garbage pass always runs, and the /unload endpoint returns
the fixed success body. -/
theorem unload_never_fails (env : TorchEnv) (st : ModelState) :
    ((unload env st).1.state.model_loaded = false) ∧
    ((unload env st).1.state.pipe = none) ∧
    (st.pipe = none → st.model_loaded = false → (unload env st).1.state = st) ∧
    ((unload env st).1.gc_collected = true) ∧
    ((unload env st).1.cache_cleared = (env.mps_available || env.cuda_available)) ∧
    ((unload env st).2 = ⟨true, "Model unloaded"⟩) := by
  refine ⟨rfl, rfl, fun hp hl => ?_, rfl, rfl, rfl⟩
  show (⟨none, false, st.load_count⟩ : ModelState) = st
  cases st
  simp_all

/-- Witness for C6: unloading an already-unloaded cpu-only process is a
no-op on the state. -/
theorem unload_never_fails_witness :
    (unload ⟨false, false⟩ ⟨none, false, 3⟩).1.state = ⟨none, false, 3⟩ :=
  (unload_never_fails ⟨false, false⟩ ⟨none, false, 3⟩).2.2.1 rfl rfl

/-- C3. A generate request succeeds exactly when load, render and save
all succeed; a successful avatar request increments total and avatars by
one (banners untouched), a successful banner request increments total and
banners by one (avatars untouched), and any failing request leaves all
three counters exactly as they were; in particular 2 successful avatar
requests followed by 1 successful banner request from the fresh state
leave total_generated = 3, avatars_generated = 2, banners_generated = 1. -/
theorem counters_increment_only_after_save (l r s : Bool) (c : Counters) :
    ((generate_avatar_counters l r s c).2 = (l && r && s)) ∧
    ((generate_banner_counters l r s c).2 = (l && r && s)) ∧
    ((generate_avatar_counters l r s c).2 = true →
      (generate_avatar_counters l r s c).1 =
        ⟨c.total_generated + 1, c.avatars_generated + 1, c.banners_generated⟩) ∧
    ((generate_banner_counters l r s c).2 = true →
      (generate_banner_counters l r s c).1 =
        ⟨c.total_generated + 1, c.avatars_generated, c.banners_generated + 1⟩) ∧
    ((generate_avatar_counters l r s c).2 = false →
      (generate_avatar_counters l r s c).1 = c) ∧
    ((generate_banner_counters l r s c).2 = false →
      (generate_banner_counters l r s c).1 = c) ∧
    ((generate_banner_counters true true true
        (generate_avatar_counters true true true
          (generate_avatar_counters true true true initCounters).1).1).1 =
      ⟨3, 2, 1⟩) := by
  cases l <;> cases r <;> cases s <;>
    simp [generate_avatar_counters, generate_banner_counters, initCounters]

/-- Witness for C3: a request whose save step fails leaves the counters
of a mid-run state untouched. -/
theorem counters_increment_only_after_save_witness :
    (generate_avatar_counters true true false ⟨2, 1, 1⟩).1 = ⟨2, 1, 1⟩ :=
  (counters_increment_only_after_save true true false ⟨2, 1, 1⟩).2.2.2.2.1 rfl

/-- Each operation leaves every counter at least as large as before. -/
theorem stepCounters_mono (op : Op) (c : Counters) :
    c.total_generated ≤ (stepCounters op c).total_generated ∧
    c.avatars_generated ≤ (stepCounters op c).avatars_generated ∧
    c.banners_generated ≤ (stepCounters op c).banners_generated := by
  cases op with
  | genAvatar l r s =>
      cases l <;> cases r <;> cases s <;>
        simp [stepCounters, generate_avatar_counters]
  | genBanner l r s =>
      cases l <;> cases r <;> cases s <;>
        simp [stepCounters, generate_banner_counters]
  | other => simp [stepCounters]

/-- Running any operation sequence leaves every counter at least as
large as it started. -/
theorem runOps_mono (ops : List Op) (c : Counters) :
    c.total_generated ≤ (runOps ops c).total_generated ∧
    c.avatars_generated ≤ (runOps ops c).avatars_generated ∧
    c.banners_generated ≤ (runOps ops c).banners_generated := by
  induction ops generalizing c with
  | nil => exact ⟨le_refl _, le_refl _, le_refl _⟩
  | cons op rest ih =>
      have h1 := stepCounters_mono op c
      have h2 := ih (stepCounters op c)
      exact ⟨le_trans h1.1 h2.1, le_trans h1.2.1 h2.2.1, le_trans h1.2.2 h2.2.2⟩

/-- Each operation preserves total = avatars + banners. -/
theorem stepCounters_sum (op : Op) (c : Counters)
    (h : c.total_generated = c.avatars_generated + c.banners_generated) :
    (stepCounters op c).total_generated =
      (stepCounters op c).avatars_generated + (stepCounters op c).banners_generated := by
  cases op with
  | genAvatar l r s =>
      cases l <;> cases r <;> cases s <;>
        simp [stepCounters, generate_avatar_counters] <;> omega
  | genBanner l r s =>
      cases l <;> cases r <;> cases s <;>
        simp [stepCounters, generate_banner_counters] <;> omega
  | other => simpa [stepCounters] using h

/-- Any operation sequence preserves total = avatars + banners. -/
theorem runOps_sum (ops : List Op) (c : Counters)
    (h : c.total_generated = c.avatars_generated + c.banners_generated) :
    (runOps ops c).total_generated =
      (runOps ops c).avatars_generated + (runOps ops c).banners_generated := by
  induction ops generalizing c with
  | nil => exact h
  | cons op rest ih => exact ih (stepCounters op c) (stepCounters_sum op c h)

/-- C10. In every state reachable from process start by any operation
sequence, total_generated = avatars_generated + banners_generated and
all three counters are non-negative; and along any extension of the
sequence each counter is non-decreasing. -/
theorem counters_reachable_invariant (ops more : List Op) :
    ((runOps ops initCounters).total_generated =
      (runOps ops initCounters).avatars_generated +
        (runOps ops initCounters).banners_generated) ∧
    (0 ≤ (runOps ops initCounters).total_generated) ∧
    (0 ≤ (runOps ops initCounters).avatars_generated) ∧
    (0 ≤ (runOps ops initCounters).banners_generated) ∧
    ((runOps ops initCounters).total_generated ≤
      (runOps (ops ++ more) initCounters).total_generated) ∧
    ((runOps ops initCounters).avatars_generated ≤
      (runOps (ops ++ more) initCounters).avatars_generated) ∧
    ((runOps ops initCounters).banners_generated ≤
      (runOps (ops ++ more) initCounters).banners_generated) := by
  have hsum := runOps_sum ops initCounters rfl
  have hmono := runOps_mono ops initCounters
  have happ : runOps (ops ++ more) initCounters = runOps more (runOps ops initCounters) := by
    simp [runOps, List.foldl_append]
  have hext := runOps_mono more (runOps ops initCounters)
  rw [happ]
  exact ⟨hsum, hmono.1, hmono.2.1, hmono.2.2, hext.1, hext.2.1, hext.2.2⟩

/-- The files actually unlinked by the loop are exactly the longest
prefix of the snapshot in which no file has vanished. -/
theorem clear_output_loop_deleted (vanished : String → Bool) (files : List String) :
    (clear_output_loop vanished files).1 =
      files.takeWhile (fun f => !(vanished f)) := by
  induction files with
  | nil => rfl
  | cons f rest ih =>
      by_cases hf : vanished f = true
      · simp [clear_output_loop, List.takeWhile_cons, hf]
      · simp only [Bool.not_eq_true] at hf
        simp [clear_output_loop, List.takeWhile_cons, hf, ih]

/-- The loop raises no error exactly when no file of the snapshot has
vanished. -/
theorem clear_output_loop_err (vanished : String → Bool) (files : List String) :
    (clear_output_loop vanished files).2 = none ↔ ∀ f ∈ files, vanished f = false := by
  induction files with
  | nil => simp [clear_output_loop]
  | cons f rest ih =>
      by_cases hf : vanished f = true
      · simp [clear_output_loop, hf]
      · simp only [Bool.not_eq_true] at hf
        simp [clear_output_loop, hf, ih]

/-- C4 counterexample: with snapshot [a.png, b.png, c.png] where b.png
has vanished before its unlink, the handler deletes a.png only, the
remaining file c.png is NOT deleted (the loop aborts), and no count is
returned — the request errors. This refutes both parts of the claim:
the sweep is not best-effort and no count of successful deletions is
reported. -/
theorem clear_output_aborts_on_missing_file :
    ((clear_output ["a.png", "b.png", "c.png"] (fun f => f == "b.png")).1 = ["a.png"]) ∧
    ("c.png" ∉ (clear_output ["a.png", "b.png", "c.png"] (fun f => f == "b.png")).1) ∧
    ((clear_output ["a.png", "b.png", "c.png"] (fun f => f == "b.png")).2 =
      Except.error "FileNotFoundError: b.png") :=
  ⟨rfl, by decide, rfl⟩

/-- C4 amended. clear_output unlinks the globbed files in listing order
and stops at the first failed deletion: when no file has vanished it
deletes them all and returns their count, but the files actually deleted
are always just the longest vanish-free prefix of the listing, and the
presence of any vanished file makes the handler raise (a 500 response)
instead of returning a count. -/
theorem clear_output_stops_at_first_failure (files : List String)
    (vanished : String → Bool) :
    ((∀ f ∈ files, vanished f = false) →
      clear_output files vanished = (files, Except.ok files.length)) ∧
    ((clear_output files vanished).1 = files.takeWhile (fun f => !(vanished f))) ∧
    (∀ f ∈ files, vanished f = true →
      ∃ e, (clear_output files vanished).2 = Except.error e) := by
  refine ⟨fun hall => ?_, ?_, fun f hf hv => ?_⟩
  · have h2 : (clear_output_loop vanished files).2 = none :=
      (clear_output_loop_err vanished files).2 hall
    have h1 : (clear_output_loop vanished files).1 = files := by
      rw [clear_output_loop_deleted]
      exact List.takeWhile_eq_self_iff.2 (by simpa using hall)
    simp [clear_output, h2, h1]
  · have := clear_output_loop_deleted vanished files
    unfold clear_output
    cases hx : (clear_output_loop vanished files).2 <;> simp_all
  · have hne : (clear_output_loop vanished files).2 ≠ none := by
      rw [Ne, clear_output_loop_err]
      intro hall
      have := hall f hf
      rw [hv] at this
      exact Bool.true_eq_false.mp this
    cases hx : (clear_output_loop vanished files).2 with
    | none => exact absurd hx hne
    | some e => exact ⟨e, by simp [clear_output, hx]⟩

/-- Witness for C4 amended: a two-file sweep with nothing vanished
deletes both files and returns count 2. -/
theorem clear_output_stops_at_first_failure_witness :
    clear_output ["x.png", "y.png"] (fun _ => false) =
      (["x.png", "y.png"], Except.ok 2) :=
  (clear_output_stops_at_first_failure ["x.png", "y.png"] (fun _ => false)).1
    (by simp)

/-- C7 counterexample: saving to a filename that already exists in the
directory (here avatar_0123456789ab.png holding contents 0) raises no
error and replaces the stored contents with the new ones — refuting the
claim that the store fails loudly on a filename collision. -/
theorem save_image_collision_overwrites :
    save_image [("avatar_0123456789ab.png", 0)] "avatar_0123456789ab.png" 1 =
      [("avatar_0123456789ab.png", 1)] ∧
    read_file (save_image [("avatar_0123456789ab.png", 0)] "avatar_0123456789ab.png" 1)
      "avatar_0123456789ab.png" = some 1 := ⟨rfl, rfl⟩

/-- find? for a name other than the one filtered out is unchanged by the
filter. -/
theorem find?_filter_ne (l : List (String × Nat)) (filename g : String)
    (hne : g ≠ filename) :
    (l.filter (fun e => e.1 != filename)).find? (fun e => e.1 == g) =
      l.find? (fun e => e.1 == g) := by
  induction l with
  | nil => rfl
  | cons a t ih =>
      by_cases haf : a.1 = filename
      · have hag : ¬((a.1 == g) = true) := by
          simp only [haf, beq_iff_eq]
          exact fun h => hne h.symm
        rw [@List.find?_cons_of_neg _ (fun e => e.1 == g) a t hag]
        have hfa : (a.1 != filename) = false := by simp [haf]
        rw [List.filter_cons, hfa, if_neg (by simp), ih]
      · have hfa : (a.1 != filename) = true := by simp [haf]
        rw [List.filter_cons, hfa, if_pos rfl]
        by_cases hag : (a.1 == g) = true
        · rw [@List.find?_cons_of_pos _ (fun e => e.1 == g) a
              (List.filter (fun e => e.1 != filename) t) hag,
            @List.find?_cons_of_pos _ (fun e => e.1 == g) a t hag]
        · rw [@List.find?_cons_of_neg _ (fun e => e.1 == g) a
              (List.filter (fun e => e.1 != filename) t) hag,
            @List.find?_cons_of_neg _ (fun e => e.1 == g) a t hag, ih]

/-- C7 amended. The save is an unconditional write: it never fails, the
saved filename afterwards holds exactly the new contents — silently
replacing whatever contents that filename held before, if any — and
every other filename's contents are unchanged. -/
theorem save_image_unconditional (dir : List (String × Nat)) (filename : String)
    (content : Nat) :
    (read_file (save_image dir filename content) filename = some content) ∧
    (∀ g, g ≠ filename →
      read_file (save_image dir filename content) g = read_file dir g) := by
  constructor
  · simp [read_file, save_image]
  · intro g hg
    have hhead : (filename == g) = false := by
      simp only [beq_eq_false_iff_ne, ne_eq]
      exact fun h => hg h.symm
    simp [read_file, save_image, hhead, find?_filter_ne dir filename g hg]

/-- Witness for C7 amended: saving a fresh banner file leaves an
existing avatar file's contents readable and unchanged. -/
theorem save_image_unconditional_witness :
    read_file (save_image [("avatar_0123456789ab.png", 7)] "banner_0123456789ab.png" 9)
      "avatar_0123456789ab.png" = some 7 :=
  (save_image_unconditional [("avatar_0123456789ab.png", 7)] "banner_0123456789ab.png" 9).2
    "avatar_0123456789ab.png" (by decide)

/-- C8. The recent-files listing is the whole directory listing sorted
by modification time descending (witnessed by a sorted permutation of
the directory), truncated to the first limit entries — its length is
min limit (number of artifacts) — and each returned entry's type is
computed from its filename by the prefix rule: avatar for avatar_*,
banner for banner_*, unknown otherwise. -/
theorem get_recent_sorted_truncated (limit : Nat) (dir : List FileEntry) :
    (∃ s : List FileEntry,
      s.Perm dir ∧ List.Sorted mtime_ge s ∧
      get_recent limit dir =
        (s.take limit).map (fun f => (f.filename, classify_filename f.filename))) ∧
    ((get_recent limit dir).length = min limit dir.length) ∧
    (∀ e ∈ get_recent limit dir, e.2 = classify_filename e.1) ∧
    (∀ name : String, starts_with name "avatar_" = true →
      classify_filename name = "avatar") ∧
    (∀ name : String, starts_with name "avatar_" = false →
      starts_with name "banner_" = true → classify_filename name = "banner") ∧
    (∀ name : String, starts_with name "avatar_" = false →
      starts_with name "banner_" = false → classify_filename name = "unknown") := by
  refine ⟨⟨List.insertionSort mtime_ge dir, List.perm_insertionSort mtime_ge dir,
    List.sorted_insertionSort mtime_ge dir, rfl⟩, ?_, ?_, ?_, ?_, ?_⟩
  · have hlen : (List.insertionSort mtime_ge dir).length = dir.length :=
      (List.perm_insertionSort mtime_ge dir).length_eq
    simp [get_recent, List.length_take, hlen]
  · intro e he
    simp only [get_recent, List.mem_map] at he
    obtain ⟨f, _, hfe⟩ := he
    rw [← hfe]
  · intro name h
    simp [classify_filename, h]
  · intro name h1 h2
    simp [classify_filename, h1, h2]
  · intro name h1 h2
    simp [classify_filename, h1, h2]

/-- Witness for C8: in a directory whose newest file is an avatar file,
the single entry returned by limit 1 carries the type computed by the
prefix rule. -/
theorem get_recent_sorted_truncated_witness :
    (("avatar_y.png", "avatar") : String × String).2 =
      classify_filename "avatar_y.png" :=
  (get_recent_sorted_truncated 1 [⟨"banner_x.png", 5⟩, ⟨"avatar_y.png", 9⟩]).2.2.1
    ("avatar_y.png", "avatar") (by decide)

/-- C9. When the request's style field is the empty string — which is
also what pydantic supplies when the field is omitted — the generated
style is the randomly picked catalog entry: the result always lies in
the (non-empty) current catalog and every catalog index is picked by
some random draw; a non-empty caller-supplied style is used verbatim. -/
theorem choose_style_defaulting (catalog : List String) (pick : Nat) (s : String) :
    (choose_style "" catalog pick = catalog.getD (pick % catalog.length) "") ∧
    (choose_style omittedGenerateRequest.style catalog pick =
      catalog.getD (pick % catalog.length) "") ∧
    (s ≠ "" → choose_style s catalog pick = s) ∧
    (catalog ≠ [] → choose_style "" catalog pick ∈ catalog) ∧
    (∀ i, i < catalog.length → choose_style "" catalog i = catalog.getD i "") := by
  refine ⟨rfl, rfl, fun hs => ?_, fun hc => ?_, fun i hi => ?_⟩
  · simp [choose_style, hs]
  · have hlen : 0 < catalog.length := List.length_pos.2 hc
    have hlt : pick % catalog.length < catalog.length := Nat.mod_lt _ hlen
    rw [choose_style, if_pos rfl, List.getD_eq_getElem catalog "" hlt]
    exact List.getElem_mem hlt
  · simp [choose_style, Nat.mod_eq_of_lt hi]

/-- Witness for C9: with the initial avatar catalog and draw 3, an empty
style is replaced by a catalog entry, which indeed lies in the catalog. -/
theorem choose_style_defaulting_witness :
    choose_style "" AVATAR_STYLES 3 ∈ AVATAR_STYLES :=
  (choose_style_defaulting AVATAR_STYLES 3 "x").2.2.2.1 (by decide)

end SybilImages
